import Mathlib

/-!
Formal model of the rustrict constraint-validation library.

Modelling conventions, applied uniformly:
 - Rust closures of type Fn() -> String are Lean functions of type Unit → String.
 - The shared, lock-protected result log (Arc of Mutex of Vec) is threaded
   explicitly as a List of entries; Vec::push is appending a singleton at the end.
 - Result of unit and ConstraintError is Except ConstraintError Unit.
 - A Rust panic (the assert in CompositeError::new) is the none case of an
   Option-returning function.
 - A trait object of type dyn Error + Send + Sync is modelled abstractly by the
   two pieces of data the code can extract from it: the name of its concrete type
   and its Display text.
-/

/-- Model of ConstraintError (src/errors/constraint_error.rs): an error whose
message is a stored zero-argument closure, evaluated only on demand. -/
structure ConstraintError where
  lazy_message : Unit → String

/-- ConstraintError::new — stores the closure; no evaluation happens here. -/
def ConstraintError.new (f : Unit → String) : ConstraintError :=
  ⟨f⟩

/-- ConstraintError::message — invokes the stored closure. -/
def ConstraintError.message (e : ConstraintError) : String :=
  e.lazy_message ()

/-- Model of impl PartialEq for ConstraintError: equality compares the two
computed messages at the moment of comparison. -/
def ConstraintError.beq (a b : ConstraintError) : Bool :=
  a.message == b.message

/-- Model of the Constraint trait (src/constraints/constraint.rs) as a capability
record: a decision function plus an error factory. -/
structure Constraint (T : Type) where
  validate : T → Bool
  generate_exception : String → ConstraintError

/-- Default trait method Constraint::generate_error_message: formats the message,
then the Display text of generate_exception applied to the message; Display of a
ConstraintError renders its computed message. -/
def Constraint.generate_error_message {T : Type} (c : Constraint T) (message : String) : String :=
  message ++ ": " ++ (c.generate_exception message).message

/-- The blanket impl of Constraint for any F with F : Fn(&T) -> bool: validate
forwards to the predicate, and generate_exception wraps the description verbatim
in a ConstraintError. -/
def Constraint.ofPred {T : Type} (f : T → Bool) : Constraint T :=
  { validate := f
    generate_exception := fun description => ConstraintError.new (fun _ => description) }

/-- One entry of the shared result log: Result of unit and ConstraintError. -/
abbrev VEntry := Except ConstraintError Unit

/-- Model of StringScope (src/string_scope.rs): the label and the optional custom
exception generator. The shared results vector is threaded explicitly through
each operation rather than stored behind a lock. -/
structure StringScope where
  message : String
  exception_generator : Option (String → ConstraintError)

/-- The failure error built by the closure named exception inside
StringScope::validate: the override applied to the label when present, otherwise
the constraint's own generate_exception applied to the label. -/
def StringScope.scopeException {T : Type} (s : StringScope) (c : Constraint T) : ConstraintError :=
  (s.exception_generator.map (fun gen => gen s.message)).getD (c.generate_exception s.message)

/-- StringScope::validate — pushes Ok when the constraint verdict equals the
expected condition, otherwise pushes Err of the scope exception. -/
def StringScope.validate {T : Type} (s : StringScope) (value : T) (c : Constraint T)
    (condition : Bool) (results : List VEntry) : List VEntry :=
  results ++ [if c.validate value == condition then Except.ok () else Except.error (s.scopeException c)]

/-- StringScope::must — validate with condition true. -/
def StringScope.must {T : Type} (s : StringScope) (value : T) (c : Constraint T)
    (results : List VEntry) : List VEntry :=
  s.validate value c true results

/-- StringScope::must_not — validate with condition false. -/
def StringScope.must_not {T : Type} (s : StringScope) (value : T) (c : Constraint T)
    (results : List VEntry) : List VEntry :=
  s.validate value c false results

/-- StringScope::constraint — evaluates a zero-argument predicate directly; on
failure pushes a ConstraintError carrying the cloned scope label. -/
def StringScope.constraint (s : StringScope) (predicate : Unit → Bool)
    (results : List VEntry) : List VEntry :=
  results ++ [if predicate () then Except.ok () else Except.error (ConstraintError.new (fun _ => s.message))]

/-- RustrictScope::results (src/lib.rs) — returns a clone of the log, which in
this model is the list itself. -/
def RustrictScope.results (log : List VEntry) : List VEntry :=
  log

/-- RustrictScope::failures (src/lib.rs) — filter_map keeping the cloned error of
each Err entry and dropping every Ok entry. -/
def RustrictScope.failures (log : List VEntry) : List ConstraintError :=
  log.filterMap (fun r => match r with
    | Except.error e => some e
    | Except.ok _ => none)

/-- Decides whether a log entry is an Err entry. -/
def isErrEntry : VEntry → Bool
  | Except.error _ => true
  | Except.ok _ => false

/-- Spec-side description of failures, written from the spec words: walk the
results in order and keep exactly the errors of the Err entries. -/
def specFailures : List VEntry → List ConstraintError
  | [] => []
  | Except.ok _ :: rest => specFailures rest
  | Except.error e :: rest => e :: specFailures rest

/-- Abstract model of a trait object dyn Error + Send + Sync: the name of its
concrete type and its Display text. The code only ever reads the Display text. -/
structure DynError where
  typeName : String
  display : String
  deriving DecidableEq

/-- Model of CompositeError (src/errors/composite_error.rs): the stored ordered
sequence of underlying errors. The field accessor is CompositeError::errors. -/
structure CompositeError where
  errors : List DynError

/-- CompositeError::new — the assert on a non-empty input is modelled by
returning none exactly when the constructor would panic. -/
def CompositeError.new (errors : List DynError) : Option CompositeError :=
  if errors.isEmpty then none else some ⟨errors⟩

/-- The value of std any type_name instantiated at dyn Error, the one type tag
the Display impl ever prints; it is a compile-time constant, independent of the
concrete type of any stored error. -/
def dynErrorTypeName : String := "dyn core::error::Error"

/-- Header of the single-error rendering. -/
def singleHeader : String := "An error occurred -- "

/-- Header of the multi-error rendering. -/
def multiHeader : String := "Multiple errors occurred -- "

/-- Separator joining the per-error blocks: a comma then a newline. -/
def joinSep : String := ",\n"

/-- Opening brace and space of a per-error block. -/
def openBrace : String := "\x7b "

/-- Space and closing brace of a per-error block. -/
def closeBrace : String := " \x7d"

/-- Opening bracket of the type tag. -/
def brackL : String := "["

/-- Closing bracket of the type tag followed by a space. -/
def brackR : String := "] "

/-- Model of impl Display for CompositeError: the source branches on len == 1 and
then reads index 0, which is exactly the singleton pattern; every other shape
takes the multi-error branch. Both branches print the constant type tag. -/
def CompositeError.display (ce : CompositeError) : String :=
  match ce.errors with
  | [e] => singleHeader ++ brackL ++ dynErrorTypeName ++ brackR ++ e.display
  | es => multiHeader ++ String.intercalate joinSep
      (es.map (fun e => openBrace ++ brackL ++ dynErrorTypeName ++ brackR ++ e.display ++ closeBrace))

/-- The single-error rendering the claim describes, written from the claim words:
the type tag names the stored error's own type. -/
def claimedSingleRender (e : DynError) : String :=
  singleHeader ++ brackL ++ e.typeName ++ brackR ++ e.display

/-- One check issued through a scope, for stating the log-growth invariant over a
whole sequence of checks; values are strings since the scope is StringScope. -/
inductive Check where
  | mustCheck : String → Constraint String → Check
  | mustNotCheck : String → Constraint String → Check
  | adhocCheck : (Unit → Bool) → Check

/-- Runs one check against the scope, transforming the shared log. -/
def applyCheck (s : StringScope) (ch : Check) (log : List VEntry) : List VEntry :=
  match ch with
  | Check.mustCheck v c => s.must v c log
  | Check.mustNotCheck v c => s.must_not v c log
  | Check.adhocCheck p => s.constraint p log

/-- Runs a sequence of checks in issue order, threading the shared log. -/
def runChecks (s : StringScope) (cs : List Check) (log : List VEntry) : List VEntry :=
  match cs with
  | [] => log
  | ch :: rest => runChecks s rest (applyCheck s ch log)

/-- The single entry a check appends to the log. -/
def checkOutcome (s : StringScope) : Check → VEntry
  | Check.mustCheck v c =>
      if c.validate v == true then Except.ok () else Except.error (s.scopeException c)
  | Check.mustNotCheck v c =>
      if c.validate v == false then Except.ok () else Except.error (s.scopeException c)
  | Check.adhocCheck p =>
      if p () then Except.ok () else Except.error (ConstraintError.new (fun _ => s.message))

/-- The label used in the concrete scenario of the blanket-impl claim. -/
def strTest : String := "Test"

/-- The predicate target of the concrete scenario of the blanket-impl claim. -/
def strNotTest : String := "Not Test"

/-- A sample value for witnesses. -/
def strX : String := "x"

/-- A sample label for witnesses. -/
def strLbl : String := "label"

/-- A sample suffix for the custom generator witness. -/
def strBang : String := "!"

/-- A sample message for the generate_error_message witness. -/
def strHi : String := "hi"

/-- A sample Display text for composite-error witnesses. -/
def strBoom : String := "boom"

/-- A sample concrete type name for composite-error witnesses. -/
def strIoError : String := "std::io::Error"

/-- A second sample concrete type name for composite-error witnesses. -/
def strFmtError : String := "core::fmt::Error"

/-- A scope with no custom exception generator, for witnesses. -/
def sPlain : StringScope := ⟨strLbl, none⟩

/-- A constraint from a constantly true predicate, for witnesses. -/
def cAlwaysTrue : Constraint String := Constraint.ofPred (fun _ => true)

/-- A constraint from a constantly false predicate, for witnesses. -/
def cAlwaysFalse : Constraint String := Constraint.ofPred (fun _ => false)

/-- A sample custom exception generator, for witnesses. -/
def genBang : String → ConstraintError :=
  fun l => ConstraintError.new (fun _ => l ++ strBang)

/-- A sample underlying error pretending to be a std io Error. -/
def dynIoError : DynError := ⟨strIoError, strBoom⟩

/-- A sample underlying error pretending to be a core fmt Error, with the same
Display text as dynIoError but a different concrete type. -/
def dynFmtError : DynError := ⟨strFmtError, strBoom⟩

/-- Helper for C1 and C2: on booleans, disequality makes beq false. -/
theorem bool_ne_beq_false (x y : Bool) (h : x ≠ y) : (x == y) = false := by
  cases x <;> cases y <;> simp_all

/-- C1: a single scope check appends exactly Ok when the constraint verdict
equals the expected condition b, otherwise appends Err of the failure error
built for the scope label; must is this check with b true and must_not is this
check with b false. -/
theorem must_and_must_not_check_outcome {T : Type} (s : StringScope) (v : T)
    (c : Constraint T) (b : Bool) (log : List VEntry) :
    (c.validate v = b → StringScope.validate s v c b log = log ++ [Except.ok ()])
    ∧ (c.validate v ≠ b →
        StringScope.validate s v c b log = log ++ [Except.error (s.scopeException c)])
    ∧ StringScope.must s v c log = StringScope.validate s v c true log
    ∧ StringScope.must_not s v c log = StringScope.validate s v c false log := by
  refine ⟨?_, ?_, rfl, rfl⟩
  · intro h
    simp [StringScope.validate, h]
  · intro h
    simp [StringScope.validate, bool_ne_beq_false _ _ h]

/-- Witness for C1 at a concrete scope, value and constraint, once in the
passing and once in the failing direction. -/
theorem must_and_must_not_check_outcome_witness :
    (cAlwaysTrue.validate strX = true
      ∧ StringScope.validate sPlain strX cAlwaysTrue true [] = [Except.ok ()])
    ∧ (cAlwaysTrue.validate strX ≠ false
      ∧ StringScope.validate sPlain strX cAlwaysTrue false []
          = [Except.error (sPlain.scopeException cAlwaysTrue)]) :=
  ⟨⟨rfl, (must_and_must_not_check_outcome sPlain strX cAlwaysTrue true []).1 rfl⟩,
   ⟨by decide, (must_and_must_not_check_outcome sPlain strX cAlwaysTrue false []).2.1 (by decide)⟩⟩

/-- C2: when the scope carries a custom exception generator g, every failing
check records exactly Err of g applied to the label, independently of the
constraint's own generate_exception; without the override the recorded error is
the constraint's generate_exception applied to the label. -/
theorem custom_exception_generator_override {T : Type} (g : String → ConstraintError)
    (m : String) (c : Constraint T) (v : T) (b : Bool) (log : List VEntry) :
    (c.validate v ≠ b →
      StringScope.validate ⟨m, some g⟩ v c b log = log ++ [Except.error (g m)])
    ∧ (c.validate v ≠ b →
      StringScope.validate ⟨m, none⟩ v c b log
        = log ++ [Except.error (c.generate_exception m)]) := by
  constructor
  · intro h
    simp [StringScope.validate, StringScope.scopeException, bool_ne_beq_false _ _ h]
  · intro h
    simp [StringScope.validate, StringScope.scopeException, bool_ne_beq_false _ _ h]

/-- Witness for C2 at a concrete generator, label and failing constraint, with
and without the override. -/
theorem custom_exception_generator_override_witness :
    (cAlwaysFalse.validate strX ≠ true
      ∧ StringScope.validate ⟨strLbl, some genBang⟩ strX cAlwaysFalse true []
          = [Except.error (genBang strLbl)])
    ∧ (cAlwaysFalse.validate strX ≠ true
      ∧ StringScope.validate ⟨strLbl, none⟩ strX cAlwaysFalse true []
          = [Except.error (cAlwaysFalse.generate_exception strLbl)]) :=
  ⟨⟨by decide,
    (custom_exception_generator_override genBang strLbl cAlwaysFalse strX true []).1 (by decide)⟩,
   ⟨by decide,
    (custom_exception_generator_override genBang strLbl cAlwaysFalse strX true []).2 (by decide)⟩⟩

/-- C3: constructing a CompositeError from the empty sequence fails fast
(modelled as none), and from any non-empty sequence E it succeeds and stores E,
so errors returns the same elements in the same order and the same length. -/
theorem compositeError_new_spec :
    CompositeError.new ([] : List DynError) = none
    ∧ ∀ E : List DynError, E ≠ [] →
        ∃ ce : CompositeError, CompositeError.new E = some ce
          ∧ ce.errors = E ∧ ce.errors.length = E.length := by
  constructor
  · rfl
  · intro E hE
    cases E with
    | nil => exact absurd rfl hE
    | cons a t => exact ⟨⟨a :: t⟩, rfl, rfl, rfl⟩

/-- Witness for C3 at a concrete one-element sequence. -/
theorem compositeError_new_spec_witness :
    ([dynIoError] : List DynError) ≠ []
    ∧ ∃ ce : CompositeError, CompositeError.new [dynIoError] = some ce
        ∧ ce.errors = [dynIoError] ∧ ce.errors.length = ([dynIoError] : List DynError).length :=
  ⟨by decide, compositeError_new_spec.2 [dynIoError] (by decide)⟩

/-- C4 counterexample: the type tag the Display impl prints is the constant name
of the dyn Error trait object, not the stored error's own type name: at a
composite holding one error of concrete type std io Error the rendering differs
from the claimed rendering, and two composites over errors of different concrete
types with equal Display text render identically although the claim requires
their renderings to differ. -/
theorem compositeError_display_type_tag_counterexample :
    CompositeError.display ⟨[dynIoError]⟩ ≠ claimedSingleRender dynIoError
    ∧ CompositeError.display ⟨[dynIoError]⟩ = CompositeError.display ⟨[dynFmtError]⟩
    ∧ claimedSingleRender dynIoError ≠ claimedSingleRender dynFmtError :=
  ⟨by decide, rfl, by decide⟩

/-- C4 amended: a composite holding exactly one error renders as the single
header, the constant dyn Error type tag in brackets, then the error's Display
text; with two or more errors it renders as the multi header followed by one
braced block per error, with the same constant tag, joined by a comma and a
newline in stored order. -/
theorem compositeError_display_rendering (e : DynError) (es : List DynError) :
    CompositeError.display ⟨[e]⟩
      = singleHeader ++ brackL ++ dynErrorTypeName ++ brackR ++ e.display
    ∧ (2 ≤ es.length →
        CompositeError.display ⟨es⟩
          = multiHeader ++ String.intercalate joinSep
              (es.map (fun x =>
                openBrace ++ brackL ++ dynErrorTypeName ++ brackR ++ x.display ++ closeBrace))) := by
  constructor
  · rfl
  · intro h
    cases es with
    | nil => rfl
    | cons a t =>
        cases t with
        | nil => simp at h
        | cons b t2 => rfl

/-- Witness for C4 at a concrete two-error composite. -/
theorem compositeError_display_rendering_witness :
    2 ≤ ([dynIoError, dynFmtError] : List DynError).length
    ∧ CompositeError.display ⟨[dynIoError, dynFmtError]⟩
        = multiHeader ++ String.intercalate joinSep
            (([dynIoError, dynFmtError] : List DynError).map (fun x =>
              openBrace ++ brackL ++ dynErrorTypeName ++ brackR ++ x.display ++ closeBrace)) :=
  ⟨by decide,
   (compositeError_display_rendering dynIoError [dynIoError, dynFmtError]).2 (by decide)⟩

/-- Helper for C5: each single check appends exactly its one outcome entry at
the end of the log. -/
theorem applyCheck_single (s : StringScope) (ch : Check) (log : List VEntry) :
    applyCheck s ch log = log ++ [checkOutcome s ch] := by
  cases ch <;> rfl

/-- C5: a sequence of checks issued through one scope appends exactly one entry
per check, in issue order, removing and reordering nothing, so the log grows by
exactly the number of checks. -/
theorem scope_checks_append_in_order (s : StringScope) (cs : List Check) (log : List VEntry) :
    runChecks s cs log = log ++ cs.map (checkOutcome s)
    ∧ (runChecks s cs log).length = log.length + cs.length := by
  have h : ∀ (cs : List Check) (log : List VEntry),
      runChecks s cs log = log ++ cs.map (checkOutcome s) := by
    intro cs
    induction cs with
    | nil => intro log; simp [runChecks]
    | cons ch rest ih =>
        intro log
        rw [runChecks, applyCheck_single, ih]
        simp
  refine ⟨h cs log, ?_⟩
  rw [h cs log]
  simp

/-- C6: failures returns exactly the errors of the Err entries of results, in
their original relative order, and its length equals the number of Err entries
in results. -/
theorem failures_are_err_entries (log : List VEntry) :
    RustrictScope.failures (RustrictScope.results log) = specFailures log
    ∧ (RustrictScope.failures (RustrictScope.results log)).length
        = (RustrictScope.results log).countP isErrEntry := by
  induction log with
  | nil => exact ⟨rfl, rfl⟩
  | cons r t ih =>
      cases r with
      | ok u =>
          simpa [RustrictScope.failures, RustrictScope.results, specFailures,
            isErrEntry, List.filterMap_cons, List.countP_cons] using ih
      | error e =>
          simpa [RustrictScope.failures, RustrictScope.results, specFailures,
            isErrEntry, List.filterMap_cons, List.countP_cons] using ih

/-- C7: two ConstraintErrors are equal exactly when the messages computed at the
moment of comparison coincide; in particular equality of two freshly built
errors depends only on what their distinct closures return, never on closure
identity. -/
theorem constraintError_eq_iff_messages (a b : ConstraintError) :
    (a.beq b = true ↔ a.message = b.message)
    ∧ ∀ f g : Unit → String,
        ((ConstraintError.new f).beq (ConstraintError.new g) = true ↔ f () = g ()) := by
  constructor
  · simp [ConstraintError.beq]
  · intro f g
    simp [ConstraintError.beq, ConstraintError.new, ConstraintError.message]

/-- C8: the blanket impl turns any predicate into a Constraint whose validate is
the predicate itself and whose generate_exception carries the description
verbatim; concretely, a scope labelled Test running must on the value Test
against the predicate comparing with Not Test records one failure whose message
equals Test. -/
theorem blanket_predicate_constraint_spec (T : Type) (f : T → Bool) (v : T) (d : String) :
    (Constraint.ofPred f).validate v = f v
    ∧ ((Constraint.ofPred f).generate_exception d).message = d
    ∧ StringScope.must ⟨strTest, none⟩ strTest (Constraint.ofPred (fun x => x == strNotTest)) []
        = [Except.error ((Constraint.ofPred (fun x : String => x == strNotTest)).generate_exception strTest)]
    ∧ ((Constraint.ofPred (fun x : String => x == strNotTest)).generate_exception strTest).message
        = strTest := by
  refine ⟨rfl, rfl, ?_, rfl⟩
  rfl

/-- C9: the ad-hoc constraint operation evaluates the zero-argument predicate
directly, appending Ok when it holds and otherwise an error carrying the scope
label verbatim as its message. -/
theorem adhoc_constraint_spec (s : StringScope) (p : Unit → Bool) (log : List VEntry) :
    (p () = true → s.constraint p log = log ++ [Except.ok ()])
    ∧ (p () = false →
        s.constraint p log = log ++ [Except.error (ConstraintError.new (fun _ => s.message))]
        ∧ (ConstraintError.new (fun _ => s.message)).message = s.message) := by
  constructor
  · intro h
    simp [StringScope.constraint, h]
  · intro h
    exact ⟨by simp [StringScope.constraint, h], rfl⟩

/-- Witness for C9 at a concrete scope, once passing and once failing. -/
theorem adhoc_constraint_spec_witness :
    ((fun _ : Unit => true) () = true
      ∧ sPlain.constraint (fun _ => true) [] = [Except.ok ()])
    ∧ ((fun _ : Unit => false) () = false
      ∧ sPlain.constraint (fun _ => false) []
          = [Except.error (ConstraintError.new (fun _ => sPlain.message))]
      ∧ (ConstraintError.new (fun _ => sPlain.message)).message = sPlain.message) :=
  ⟨⟨rfl, (adhoc_constraint_spec sPlain (fun _ => true) []).1 rfl⟩,
   ⟨rfl, (adhoc_constraint_spec sPlain (fun _ => false) []).2 rfl⟩⟩

/-- C10: the default method generate_error_message duplicates its message: for
any constraint whose generated exception renders the description verbatim it
returns the message, a colon and a space, then the message again. -/
theorem generate_error_message_duplicates {T : Type} (c : Constraint T) (m : String)
    (h : (c.generate_exception m).message = m) :
    c.generate_error_message m = m ++ ": " ++ m := by
  simp [Constraint.generate_error_message, h]

/-- Witness for C10 at the blanket impl of a concrete predicate. -/
theorem generate_error_message_duplicates_witness :
    (cAlwaysTrue.generate_exception strHi).message = strHi
    ∧ cAlwaysTrue.generate_error_message strHi = strHi ++ ": " ++ strHi :=
  ⟨rfl, generate_error_message_duplicates cAlwaysTrue strHi rfl⟩
